import Mathlib

/-!
Shallow embedding of the ytat YouTube-Shorts automation pipeline.

Each definition mirrors one function of the Python sources:
`script_generator.py`, `video_creator.py`, `youtube_uploader.py`,
`main.py`, `config.py`.  External effects (network, clock, random
choice, filesystem) are passed in explicitly: network responses as
`List (Option ApiResponse)`, the clock as a `now : String` timestamp,
random choices as an index, and the upload transport as a list of
per-attempt chunk outcomes.
-/

/-- Joke dictionary as produced by `fetch_joke_from_api` and by the
`backup_jokes` table of `ScriptGenerator.__init__`: the optional
`setup` / `punchline` / `joke` keys and the always-present `type` key. -/
structure JokeData where
  setup : Option String
  punchline : Option String
  joke : Option String
  jtype : String
deriving DecidableEq

/-- The `backup_jokes` list of `ScriptGenerator.__init__`
(src/script_generator.py lines 44-82): five two-part dad jokes and
three one-liners. -/
def backup_jokes : List JokeData :=
  [ ⟨some "Why don't scientists trust atoms?",
      some "Because they make up everything!", none, "dad_joke"⟩,
    ⟨some "What do you call a fake noodle?",
      some "An impasta!", none, "dad_joke"⟩,
    ⟨some "Why did the scarecrow win an award?",
      some "Because he was outstanding in his field!", none, "dad_joke"⟩,
    ⟨some "What do you call a bear with no teeth?",
      some "A gummy bear!", none, "dad_joke"⟩,
    ⟨some "Why don't eggs tell jokes?",
      some "They'd crack each other up!", none, "dad_joke"⟩,
    ⟨none, none,
      some "I told my wife she was drawing her eyebrows too high. She looked surprised.",
      "one_liner"⟩,
    ⟨none, none, some "I invented a new word: Plagiarism!", "one_liner"⟩,
    ⟨none, none,
      some "Why do programmers prefer dark mode? Because light attracts bugs!",
      "one_liner"⟩ ]

/-- One network joke-API response, in one of the three shapes the code
parses in `fetch_joke_from_api`: official-joke-api `setup`/`punchline`,
jokeapi.dev `single` or two-part (`setup`/`delivery`), and
icanhazdadjoke single line. -/
inductive ApiResponse where
  | official (setup punchline : String)
  | jokeapiSingle (joke : String)
  | jokeapiTwoPart (setup delivery : String)
  | dadjoke (joke : String)
deriving DecidableEq

/-- Normalisation branch of `fetch_joke_from_api`
(src/script_generator.py lines 96-119): each response shape becomes a
joke dictionary with a `type` tag. -/
def fetch_joke_parse : ApiResponse → JokeData
  | .official s p => ⟨some s, some p, none, "dad_joke"⟩
  | .jokeapiSingle j => ⟨none, none, some j, "one_liner"⟩
  | .jokeapiTwoPart s d => ⟨some s, some d, none, "dad_joke"⟩
  | .dadjoke j => ⟨none, none, some j, "one_liner"⟩

/-- `get_joke_from_apis` (src/script_generator.py lines 125-136): try
each source in (shuffled) order, return the first successful parse,
`none` when every source fails.  `outcomes` lists, per source, either
a parsed response or a failure. -/
def get_joke_from_apis : List (Option ApiResponse) → Option JokeData
  | [] => none
  | none :: rest => get_joke_from_apis rest
  | some r :: _ => some (fetch_joke_parse r)

/-- `get_backup_joke` (src/script_generator.py lines 138-140):
`random.choice(self.backup_jokes)`, with the random draw modelled as an
index reduced modulo the list length. -/
def get_backup_joke (i : Nat) : JokeData :=
  backup_jokes.getD (i % backup_jokes.length) ⟨none, none, none, ""⟩

/-- Word count in the sense of Python `str.split()`: split on
whitespace and drop empty pieces. -/
def wordCount (s : String) : Nat :=
  ((s.split Char.isWhitespace).filter (fun w => w ≠ "")).length

/-- Script dictionary built by `format_script`: timestamp, source tag,
joke type, full script text, the optional `setup`/`punchline` keys
(present only in the dad-joke branch), duration in seconds and topic. -/
structure ScriptData where
  timestamp : String
  source : String
  jtype : String
  script : String
  setup : Option String
  punchline : Option String
  duration : Nat
  topic : String
deriving DecidableEq

/-- `format_script` (src/script_generator.py lines 142-173).  The
result is `none` exactly when the dad-joke branch reads the absent
`punchline` key (a `KeyError` in the Python code). -/
def format_script (j : JokeData) (now : String) : Option ScriptData :=
  let source := if j.setup.isSome || j.joke.isSome then "api" else "backup"
  if j.jtype = "dad_joke" ∧ j.setup.isSome then
    match j.punchline with
    | some p =>
        some ⟨now, source, j.jtype, j.setup.getD "" ++ " " ++ p,
              j.setup, some p, 6, "dad joke"⟩
    | none => none
  else if j.jtype = "one_liner" ∧ j.joke.isSome then
    match j.joke with
    | some jk => some ⟨now, source, j.jtype, jk, none, none, 4, "one liner"⟩
    | none => none
  else
    let script_text :=
      j.joke.getD ((j.setup.getD "") ++ " " ++ (j.punchline.getD ""))
    some ⟨now, source, j.jtype, script_text, none, none,
          wordCount script_text / 2, "humor"⟩

/-- A timed visual cue marker added by `enhance_script_for_video`. -/
structure VisualCue where
  time : ℚ
  action : String
deriving DecidableEq

/-- A timed text-overlay span added by `enhance_script_for_video`. -/
structure TextOverlay where
  text : String
  start : ℚ
  stop : ℚ
deriving DecidableEq

/-- Script dictionary after `enhance_script_for_video`: the formatted
script plus visual cues, text overlays, background-audio settings and
hashtag suggestions. -/
structure EnhancedScript where
  base : ScriptData
  visual_cues : List VisualCue
  text_overlays : List TextOverlay
  background_audio_type : String
  background_audio_volume : ℚ
  suggested_hashtags : List String
deriving DecidableEq

/-- `enhance_script_for_video` (src/script_generator.py lines
175-217): dad jokes get the fixed four-cue sequence and a
setup/punchline overlay pair; everything else shows the whole script
for the full duration with a closing emoji cue. -/
def enhance_script_for_video (s : ScriptData) : EnhancedScript :=
  if s.jtype = "dad_joke" then
    { base := s
      visual_cues :=
        [⟨0, "show_setup_text"⟩, ⟨2, "dramatic_pause"⟩,
         ⟨3, "show_punchline_text"⟩, ⟨5, "show_laughing_emoji"⟩]
      text_overlays :=
        [⟨s.setup.getD "", 0, 5/2⟩, ⟨s.punchline.getD "", 3, 6⟩]
      background_audio_type := "upbeat_comedy"
      background_audio_volume := 3/10
      suggested_hashtags :=
        ["#shorts", "#funny", "#comedy", "#joke", "#humor",
         "#viral", "#laughs", "#entertainment"] }
  else
    { base := s
      visual_cues :=
        [⟨0, "show_joke_text"⟩, ⟨(s.duration : ℚ), "show_laughing_emoji"⟩]
      text_overlays := [⟨s.script, 0, (s.duration : ℚ)⟩]
      background_audio_type := "upbeat_comedy"
      background_audio_volume := 3/10
      suggested_hashtags :=
        ["#shorts", "#funny", "#comedy", "#joke", "#humor",
         "#viral", "#laughs", "#entertainment"] }

/-- `generate_funny_script` (src/script_generator.py lines 219-249):
take the first successful network joke, fall back to a backup joke
when every source failed, then format and enhance.  The surrounding
`try` swallows any exception, so the embedded function is total over
its inputs. -/
def generate_funny_script (outcomes : List (Option ApiResponse))
    (i : Nat) (now : String) : Option EnhancedScript :=
  let joke :=
    match get_joke_from_apis outcomes with
    | some j => j
    | none => get_backup_joke i
  (format_script joke now).map enhance_script_for_video

/-- One outcome of `insert_request.next_chunk()` inside
`_resumable_upload`: a chunk uploaded with more to go (`progress`), a
final response with or without an `id` field (`response_done`), an
`HttpError` with a status code, or any other exception. -/
inductive ChunkOutcome where
  | progress
  | response_done (response_id : Option String)
  | httpError (code : Nat)
  | otherError
deriving DecidableEq

/-- Status codes the uploader treats as retriable
(src/youtube_uploader.py line 167): 500, 502, 503, 504. -/
def retriable (c : Nat) : Bool :=
  c = 500 || c = 502 || c = 503 || c = 504

/-- Loop body of `_resumable_upload` (src/youtube_uploader.py lines
151-188), one recursive step per `while` iteration.  State: the
remaining transport outcomes, whether `error` has ever been set (the
code never resets it to `None`), the `retry` counter, and the list of
backoff sleeps (in seconds) performed so far.  Returns `none` when the
transport trace ends before the loop does, otherwise the returned
video id (or `none` for the `return None` paths) together with the
sleeps performed. -/
def resumable_upload_loop :
    List ChunkOutcome → Bool → Nat → List Nat →
    Option (Option String × List Nat)
  | [], _, _, _ => none
  | o :: rest, err, retry, sleeps =>
    match o with
    | .response_done (some id) => some (some id, sleeps)
    | .response_done none => some (none, sleeps)
    | .otherError => some (none, sleeps)
    | .httpError c =>
        if retriable c then
          if retry + 1 > 3 then some (none, sleeps)
          else resumable_upload_loop rest true (retry + 1)
                 (sleeps ++ [2 ^ (retry + 1)])
        else some (none, sleeps)
    | .progress =>
        if err then
          if retry + 1 > 3 then some (none, sleeps)
          else resumable_upload_loop rest err (retry + 1)
                 (sleeps ++ [2 ^ (retry + 1)])
        else resumable_upload_loop rest err retry sleeps

/-- `_resumable_upload` run from its initial state
(`response = None`, `error = None`, `retry = 0`). -/
def resumable_upload (outcomes : List ChunkOutcome) :
    Option (Option String × List Nat) :=
  resumable_upload_loop outcomes false 0 []

/-- One record of the `uploads_log.json` append-only log, as built by
`_save_upload_metadata` (src/youtube_uploader.py lines 190-221). -/
structure UploadMetadata where
  video_id : String
  video_path : String
  title : String
  description : String
  tags : List String
  upload_time : String
  url : String
deriving DecidableEq

/-- `_save_upload_metadata`: read the existing log, append one record
built from the arguments, write the log back. -/
def save_upload_metadata (uploads : List UploadMetadata)
    (video_id video_path title description : String)
    (tags : List String) (now : String) : List UploadMetadata :=
  uploads ++ [⟨video_id, video_path, title, description, tags, now,
              "https://www.youtube.com/watch?v=" ++ video_id⟩]

/-- `upload_video` (src/youtube_uploader.py lines 85-149): guard on
authentication and file existence, run the resumable upload, and on a
non-null video id append to the upload log.  Every failure path
returns `none`; the `try` around the body swallows exceptions. -/
def upload_video (authenticated file_exists : Bool)
    (outcomes : List ChunkOutcome) (uploads : List UploadMetadata)
    (video_path title description : String) (tags : List String)
    (now : String) : Option String × List UploadMetadata :=
  if !authenticated then (none, uploads)
  else if !file_exists then (none, uploads)
  else
    match resumable_upload outcomes with
    | some (some id, _) =>
        (some id,
         save_upload_metadata uploads id video_path title description tags now)
    | _ => (none, uploads)

/-- Font-size selection of `VideoCreator.create_text_clip`
(src/video_creator.py lines 109-119): default font size 80 from
`text_settings`, then the length-based adjustment exactly as written
(`if len > 50 ... elif len > 100 ...`). -/
def create_text_clip_fontsize (text : String) (fontsize : Option Int) : Int :=
  let f := fontsize.getD 80
  if text.length > 50 then max 40 (f - 10)
  else if text.length > 100 then max 30 (f - 20)
  else f

/-- The rendered video as fixed by `create_video_from_script` and the
`video_settings` of `VideoCreator.__init__`: clamped duration,
1080x1920 frame, 30 fps. -/
structure RenderedAsset where
  duration : Nat
  width : Nat
  height : Nat
  fps : Nat
deriving DecidableEq

/-- Duration and frame geometry of `create_video_from_script`
(src/video_creator.py line 176): `min(script_data.get("duration", 10), 60)`
then composition at `video_settings` size and fps. -/
def create_video_from_script (s : EnhancedScript) : RenderedAsset :=
  { duration := min s.base.duration 60
    width := 1080
    height := 1920
    fps := 30 }

/-- The `base_titles` list of `generate_title` (src/main.py). -/
def base_titles : List String :=
  ["😂 This Will Make You LAUGH!",
   "🤣 Funniest Short You'll See Today!",
   "😂 You Won't Believe This!",
   "🤣 This Is TOO FUNNY!",
   "😂 Watch This & Try Not to Laugh!",
   "🤣 Hilarious Short Alert!",
   "😂 This Cracked Me Up!",
   "🤣 You NEED to See This!"]

/-- `generate_title`: `random.choice(base_titles)`, the draw modelled
as an index reduced modulo the list length. -/
def generate_title (i : Nat) : String :=
  base_titles.getD (i % base_titles.length) ""

/-- `generate_tags` (src/main.py lines 148-160): sixteen base tags,
extended with the lower-cased topic words, truncated to 15. -/
def generate_tags (s : EnhancedScript) : List String :=
  (["funny", "comedy", "humor", "shorts", "viral", "laugh",
    "hilarious", "entertainment", "fun", "joke", "meme",
    "youtubeshorts", "short", "trending", "fyp", "foryou"] ++
   ((s.base.topic.toLower.split Char.isWhitespace).filter (fun w => w ≠ ""))).take 15

/-- `generate_description` (src/main.py lines 162-174). -/
def generate_description (s : EnhancedScript) : String :=
  "🤣 Hope this made you laugh! \n\n" ++ s.base.script ++
  "\n\n🔔 Subscribe for daily funny shorts!\n👍 Like if this made you smile!\n💬 Comment your favorite part!\n\n#Shorts #Funny #Comedy #Viral #Entertainment\n"

/-- The `content_data` dictionary assembled by
`YouTubeShortsAutomation.generate_content`. -/
structure ContentData where
  video_path : String
  title : String
  description : String
  tags : List String
  script : EnhancedScript
  created_at : String
deriving DecidableEq

/-- `generate_content` (src/main.py lines 61-107): script generation
then rendering, each short-circuiting to `None` on failure; the
rendering stage is passed in as a function so that both video creators
fit.  Metadata (title, tags, description) is attached on success. -/
def generate_content (script_result : Option EnhancedScript)
    (render : EnhancedScript → Option String) (titleIdx : Nat)
    (now : String) : Option ContentData :=
  match script_result with
  | none => none
  | some sd =>
    match render sd with
    | none => none
    | some path =>
        some ⟨path, generate_title titleIdx, generate_description sd,
              generate_tags sd, sd, now⟩

/-- `daily_automation` (src/main.py lines 176-198).  The boolean is
the function's return value; the counter records how many times the
upload stage was invoked during the run. -/
def daily_automation (script_result : Option EnhancedScript)
    (render : EnhancedScript → Option String)
    (upload : ContentData → Option String) (titleIdx : Nat)
    (now : String) : Bool × Nat :=
  match generate_content script_result render titleIdx now with
  | none => (false, 0)
  | some c =>
    match upload c with
    | none => (false, 1)
    | some _ => (true, 1)

/-- JSON-like configuration values, the shape of `Config.settings`:
nested string-keyed dictionaries (association lists in insertion
order) with scalar and array leaves. -/
inductive JVal where
  | dict : List (String × JVal) → JVal
  | str : String → JVal
  | num : Int → JVal
  | boolean : Bool → JVal
  | arr : List JVal → JVal

/-- Python `d[key]` read on an insertion-ordered dictionary. -/
def dictLookup : List (String × JVal) → String → Option JVal
  | [], _ => none
  | (k, v) :: rest, key =>
      if k = key then some v else dictLookup rest key

/-- Python `d[key] = v` on an insertion-ordered dictionary: replace in
place if the key exists, else append. -/
def dictInsert : List (String × JVal) → String → JVal → List (String × JVal)
  | [], key, v => [(key, v)]
  | (k, w) :: rest, key, v =>
      if k = key then (key, v) :: rest
      else (k, w) :: dictInsert rest key v

/-- Loop of `Config.get` (src/config.py lines 182-193) over the split
key path: descend while the current value is a dictionary containing
the key, else return the default (`none`). -/
def configGet : JVal → List String → Option JVal
  | v, [] => some v
  | .dict d, key :: ks =>
    (match dictLookup d key with
     | some v => configGet v ks
     | none => none)
  | _, _ :: _ => none

/-- Loop of `Config.set` (src/config.py lines 195-206) over the split
key path: walk all keys but the last, creating `{}` for absent ones,
then assign at the last key.  A non-dictionary met along the walk (or
at the root) raises in Python; that is the `none` result here. -/
def configSet : JVal → List String → JVal → Option JVal
  | .dict d, [key], v => some (.dict (dictInsert d key v))
  | .dict d, key :: key2 :: ks, v =>
      (configSet ((dictLookup d key).getD (.dict [])) (key2 :: ks) v).map
        (fun sub => .dict (dictInsert d key sub))
  | _, _, _ => none

/-- The precondition of the round-trip claim: the state is a
dictionary, the path is nonempty, and every intermediate key is either
absent or bound to a dictionary. -/
def okPath : JVal → List String → Bool
  | .dict _, [_] => true
  | .dict d, key :: key2 :: ks =>
    (match dictLookup d key with
     | some (.dict d') => okPath (.dict d') (key2 :: ks)
     | some _ => false
     | none => okPath (.dict []) (key2 :: ks))
  | _, _ => false

/-- A concrete enhanced script whose requested duration is 500 seconds. -/
def sample_script_500 : EnhancedScript :=
  { base := ⟨"2024-01-01T00:00:00", "api", "one_liner", "a joke", none, none,
             500, "one liner"⟩
    visual_cues := []
    text_overlays := []
    background_audio_type := "upbeat_comedy"
    background_audio_volume := 3/10
    suggested_hashtags := [] }

/-- C5: the renderer clamps any requested duration to at most 60
seconds; in particular a script asking for 500 seconds is rendered at
exactly 60. -/
theorem create_video_duration_clamped (s : EnhancedScript) :
    (create_video_from_script s).duration ≤ 60 ∧
    (s.base.duration = 500 → (create_video_from_script s).duration = 60) := by
  refine ⟨min_le_right _ _, fun h => ?_⟩
  simp [create_video_from_script, h]

/-- C5 witness: the clamp evaluated on the concrete 500-second script. -/
theorem create_video_duration_clamped_witness :
    (create_video_from_script sample_script_500).duration ≤ 60 ∧
    (create_video_from_script sample_script_500).duration = 60 :=
  ⟨(create_video_duration_clamped sample_script_500).1,
   (create_video_duration_clamped sample_script_500).2 rfl⟩

/-- A 101-character line of text. -/
def long_text : String := ⟨List.replicate 101 'a'⟩

/-- C8: on a line longer than 100 characters the code picks font size
70, not the 60 the `> 100` reduction would give — the `elif len > 100`
branch of `create_text_clip` is shadowed by the `if len > 50` branch
and can never run. -/
theorem create_text_clip_fontsize_bug :
    long_text.length = 101 ∧
    create_text_clip_fontsize long_text none = 70 ∧
    create_text_clip_fontsize long_text none ≠ 60 := by
  decide

/-- C9: the upload log is append-only: whatever the transport does,
the records already in the log survive as a prefix, and a successful
upload appends exactly the one new record built by
`_save_upload_metadata`. -/
theorem upload_log_append_only (auth fe : Bool) (outcomes : List ChunkOutcome)
    (uploads : List UploadMetadata) (vp t d : String) (tags : List String)
    (now : String) :
    ((upload_video auth fe outcomes uploads vp t d tags now).2.take
        uploads.length = uploads) ∧
    (∀ id, (upload_video auth fe outcomes uploads vp t d tags now).1 = some id →
      (upload_video auth fe outcomes uploads vp t d tags now).2 =
        uploads ++ [⟨id, vp, t, d, tags, now,
                     "https://www.youtube.com/watch?v=" ++ id⟩]) := by
  cases auth with
  | false => simp [upload_video]
  | true =>
    cases fe with
    | false => simp [upload_video]
    | true =>
      rcases hres : resumable_upload outcomes with _ | ⟨oid, sleeps⟩
      · simp [upload_video, hres]
      · rcases oid with _ | id0
        · simp [upload_video, hres]
        · constructor
          · simp [upload_video, hres, save_upload_metadata]
          · intro id hid
            simp [upload_video, hres] at hid
            subst hid
            simp [upload_video, hres, save_upload_metadata]

/-- C9 witness: a successful single-chunk upload starting from the
empty log yields exactly one record. -/
theorem upload_log_append_only_witness :
    (upload_video true true [.response_done (some "vid1")] [] "p" "t" "d" []
        "now").2 =
      [⟨"vid1", "p", "t", "d", [], "now",
        "https://www.youtube.com/watch?v=" ++ "vid1"⟩] :=
  (upload_log_append_only true true [.response_done (some "vid1")] [] "p" "t"
    "d" [] "now").2 "vid1" rfl

/-- C2 counterexample: with HTTP 503 exactly twice and then success,
the two backoff sleeps are 2 and 4 seconds (the code sleeps
`2 ** retry` with `retry` starting at 1), totalling 6 nominal seconds
and not the 3 (1 + 2) the claim states. -/
theorem upload_backoff_totals_counterexample :
    resumable_upload [.httpError 503, .httpError 503,
                      .response_done (some "abc")] =
      some (some "abc", [2, 4]) ∧
    ([2, 4] : List Nat).sum = 6 ∧ ¬ (([2, 4] : List Nat).sum = 1 + 2) := by
  decide

/-- C2 amended: a transient 5xx on a chunk is retried with a backoff
of `2 ^ attempt` seconds counting attempts from 1; with HTTP 503
exactly twice and then success, the upload succeeds after exactly 2
backoff sleeps of 2 and 4 seconds, totalling 6 nominal seconds, and
returns the non-null remote id. -/
theorem upload_backoff_after_two_503 (id : String) (rest : List ChunkOutcome) :
    resumable_upload ([.httpError 503, .httpError 503,
                       .response_done (some id)] ++ rest) =
      some (some id, [2 ^ 1, 2 ^ 2]) ∧
    ([2 ^ 1, 2 ^ 2] : List Nat).length = 2 ∧
    ([2 ^ 1, 2 ^ 2] : List Nat).sum = 6 :=
  ⟨rfl, rfl, rfl⟩

/-- C3: when the transport answers HTTP 503 on every attempt the loop
gives up after 3 retries (three backoff sleeps), `_resumable_upload`
returns null, and `upload_video` hands `none` back to its caller
instead of an exception. -/
theorem upload_retry_exhaustion_returns_none (rest : List ChunkOutcome)
    (auth fe : Bool) (uploads : List UploadMetadata) (vp t d : String)
    (tags : List String) (now : String) :
    resumable_upload ([.httpError 503, .httpError 503, .httpError 503,
                       .httpError 503] ++ rest) =
      some (none, [2, 4, 8]) ∧
    ([2, 4, 8] : List Nat).length = 3 ∧
    (upload_video auth fe
        ([.httpError 503, .httpError 503, .httpError 503, .httpError 503] ++
          rest) uploads vp t d tags now).1 = none := by
  refine ⟨rfl, rfl, ?_⟩
  cases auth with
  | false => simp [upload_video]
  | true =>
    cases fe with
    | false => simp [upload_video]
    | true =>
      have h : resumable_upload
          (.httpError 503 :: .httpError 503 :: .httpError 503 ::
            .httpError 503 :: rest) = some (none, [2, 4, 8]) := rfl
      simp [upload_video, h]

/-- C4: if the script stage or the render stage of a run returns
`None`, the run returns `False` and the upload stage is never invoked
(its invocation counter stays 0). -/
theorem daily_automation_short_circuit (script_result : Option EnhancedScript)
    (render : EnhancedScript → Option String)
    (upload : ContentData → Option String) (titleIdx : Nat) (now : String)
    (h : script_result = none ∨
         ∃ sd, script_result = some sd ∧ render sd = none) :
    daily_automation script_result render upload titleIdx now = (false, 0) := by
  rcases h with h | ⟨sd, hs, hr⟩
  · subst h; rfl
  · subst hs; simp [daily_automation, generate_content, hr]

/-- C4 witness: a run whose render stage fails returns `False` and
never calls upload. -/
theorem daily_automation_short_circuit_witness :
    daily_automation (some sample_script_500) (fun _ => none)
      (fun _ => some "url") 0 "t" = (false, 0) :=
  daily_automation_short_circuit (some sample_script_500) (fun _ => none)
    (fun _ => some "url") 0 "t" (Or.inr ⟨sample_script_500, rfl, rfl⟩)

/-- Writing a key into a dictionary makes it readable back. -/
theorem dictLookup_dictInsert (d : List (String × JVal)) (k : String)
    (v : JVal) : dictLookup (dictInsert d k v) k = some v := by
  induction d with
  | nil => simp [dictInsert, dictLookup]
  | cons hd tl ih =>
    obtain ⟨k', w⟩ := hd
    by_cases h : k' = k
    · simp [dictInsert, dictLookup, h]
    · simp [dictInsert, dictLookup, h, ih]

/-- Round trip of the key-path loops of `Config.set` and `Config.get`:
on a dictionary state whose intermediate keys along the path are
absent or dictionaries, `set` succeeds and `get` reads the written
value back. -/
theorem configSet_configGet (ks : List String) :
    ∀ (s : JVal) (v : JVal), okPath s ks = true →
      ∃ s', configSet s ks v = some s' ∧ configGet s' ks = some v := by
  induction ks with
  | nil =>
    intro s v h
    cases s <;> simp [okPath] at h
  | cons k rest ih =>
    intro s v h
    cases s with
    | dict d =>
      cases rest with
      | nil =>
        refine ⟨.dict (dictInsert d k v), rfl, ?_⟩
        simp [configGet, dictLookup_dictInsert]
      | cons k2 ks2 =>
        cases hlu : dictLookup d k with
        | none =>
          have h' : okPath (.dict []) (k2 :: ks2) = true := by
            simpa [okPath, hlu] using h
          obtain ⟨s', hset, hget⟩ := ih (.dict []) v h'
          refine ⟨.dict (dictInsert d k s'), ?_, ?_⟩
          · simp [configSet, hlu, hset]
          · simp [configGet, dictLookup_dictInsert, hget]
        | some sub =>
          cases sub with
          | dict d' =>
            have h' : okPath (.dict d') (k2 :: ks2) = true := by
              simpa [okPath, hlu] using h
            obtain ⟨s', hset, hget⟩ := ih (.dict d') v h'
            refine ⟨.dict (dictInsert d k s'), ?_, ?_⟩
            · simp [configSet, hlu, hset]
            · simp [configGet, dictLookup_dictInsert, hget]
          | str a => simp [okPath, hlu] at h
          | num a => simp [okPath, hlu] at h
          | boolean a => simp [okPath, hlu] at h
          | arr a => simp [okPath, hlu] at h
    | str a => simp [okPath] at h
    | num a => simp [okPath] at h
    | boolean a => simp [okPath] at h
    | arr a => simp [okPath] at h

/-- A concrete configuration state: `{"automation": {"daily_upload_time": "10:00"}}`. -/
def sample_settings : JVal :=
  .dict [("automation", .dict [("daily_upload_time", .str "10:00")])]

/-- C10 witness: setting `automation.max_video_duration` to 60 in the
sample state and reading it back returns 60. -/
theorem configSet_configGet_witness :
    ∃ s', configSet sample_settings ["automation", "max_video_duration"]
            (.num 60) = some s' ∧
          configGet s' ["automation", "max_video_duration"] = some (.num 60) :=
  configSet_configGet ["automation", "max_video_duration"] sample_settings
    (.num 60) (by rfl)

/-- Well-formedness `format_script` needs to avoid the `KeyError`
path: a dad joke carrying a `setup` key also carries `punchline`. -/
abbrev jokeWf (j : JokeData) : Prop :=
  j.jtype = "dad_joke" → j.setup.isSome → j.punchline.isSome

/-- Formatting succeeds on every well-formed joke dictionary. -/
theorem format_script_isSome (j : JokeData) (now : String) (h : jokeWf j) :
    (format_script j now).isSome := by
  by_cases h1 : j.jtype = "dad_joke" ∧ j.setup.isSome
  · obtain ⟨p, hp⟩ := Option.isSome_iff_exists.mp (h h1.1 h1.2)
    simp [format_script, h1, hp]
  · by_cases h2 : j.jtype = "one_liner" ∧ j.joke.isSome
    · obtain ⟨jk, hjk⟩ := Option.isSome_iff_exists.mp h2.2
      simp [format_script, h1, h2, hjk]
    · simp [format_script, h1, h2]

/-- Every joke parsed from a network response is well-formed. -/
theorem get_joke_from_apis_wf (outcomes : List (Option ApiResponse))
    (j : JokeData) (h : get_joke_from_apis outcomes = some j) : jokeWf j := by
  induction outcomes with
  | nil => simp [get_joke_from_apis] at h
  | cons o rest ih =>
    cases o with
    | none => exact ih (by simpa [get_joke_from_apis] using h)
    | some r =>
      simp [get_joke_from_apis] at h
      subst h
      cases r with
      | official s p => intro _ _; rfl
      | jokeapiSingle jk => intro hd _; simp [fetch_joke_parse] at hd
      | jokeapiTwoPart s d => intro _ _; rfl
      | dadjoke jk => intro hd _; simp [fetch_joke_parse] at hd

/-- Every backup joke is well-formed. -/
theorem get_backup_joke_wf (i : Nat) : jokeWf (get_backup_joke i) := by
  have h8 : ∀ r : Fin 8,
      jokeWf (backup_jokes.getD (r : Nat) ⟨none, none, none, ""⟩) := by decide
  have hlt : i % backup_jokes.length < 8 := Nat.mod_lt _ (by decide)
  exact h8 ⟨i % backup_jokes.length, hlt⟩

/-- Every backup-joke draw lands in the backup list. -/
theorem get_backup_joke_mem (i : Nat) : get_backup_joke i ∈ backup_jokes := by
  have h8 : ∀ r : Fin 8,
      backup_jokes.getD (r : Nat) ⟨none, none, none, ""⟩ ∈ backup_jokes := by
    decide
  have hlt : i % backup_jokes.length < 8 := Nat.mod_lt _ (by decide)
  exact h8 ⟨i % backup_jokes.length, hlt⟩

/-- When every network source fails, no API joke is produced. -/
theorem get_joke_from_apis_all_none (outcomes : List (Option ApiResponse))
    (h : ∀ o ∈ outcomes, o = none) : get_joke_from_apis outcomes = none := by
  induction outcomes with
  | nil => rfl
  | cons o rest ih =>
    have ho := h o (List.mem_cons_self o rest)
    subst ho
    exact ih fun o' ho' => h o' (List.mem_cons_of_mem _ ho')

/-- C1: the script-fetch pipeline always returns a populated record
(the embedded function is total, mirroring the `try` that swallows
every exception), and when every network source fails the record is
built from a joke of the fixed 8-entry backup list. -/
theorem generate_funny_script_never_none
    (outcomes : List (Option ApiResponse)) (i : Nat) (now : String) :
    (generate_funny_script outcomes i now).isSome ∧
    ((∀ o ∈ outcomes, o = none) →
      backup_jokes.length = 8 ∧
      ∃ j ∈ backup_jokes, ∃ sd, format_script j now = some sd ∧
        generate_funny_script outcomes i now =
          some (enhance_script_for_video sd)) := by
  constructor
  · unfold generate_funny_script
    cases hj : get_joke_from_apis outcomes with
    | some j =>
      obtain ⟨sd, hsd⟩ := Option.isSome_iff_exists.mp
        (format_script_isSome j now (get_joke_from_apis_wf outcomes j hj))
      simp [hj, hsd]
    | none =>
      obtain ⟨sd, hsd⟩ := Option.isSome_iff_exists.mp
        (format_script_isSome _ now (get_backup_joke_wf i))
      simp [hj, hsd]
  · intro hall
    have hj := get_joke_from_apis_all_none outcomes hall
    obtain ⟨sd, hsd⟩ := Option.isSome_iff_exists.mp
      (format_script_isSome _ now (get_backup_joke_wf i))
    refine ⟨rfl, get_backup_joke i, get_backup_joke_mem i, sd, hsd, ?_⟩
    unfold generate_funny_script
    simp [hj, hsd]

/-- C1 witness: with all three network sources failing, the pipeline
still yields a record built from a backup joke. -/
theorem generate_funny_script_never_none_witness :
    backup_jokes.length = 8 ∧
    ∃ j ∈ backup_jokes, ∃ sd, format_script j "t" = some sd ∧
      generate_funny_script [none, none, none] 0 "t" =
        some (enhance_script_for_video sd) :=
  (generate_funny_script_never_none [none, none, none] 0 "t").2 (by simp)

/-- The formatted record differs between two timestamps only in its
`timestamp` field. -/
theorem format_script_timestamp (j : JokeData) (now now' : String) :
    format_script j now =
      (format_script j now').map (fun sd => { sd with timestamp := now }) := by
  by_cases g1 : j.jtype = "dad_joke" ∧ j.setup.isSome
  · cases hp : j.punchline <;> simp [format_script, g1, hp]
  · by_cases g2 : j.jtype = "one_liner" ∧ j.joke.isSome
    · obtain ⟨jk, hjk⟩ := Option.isSome_iff_exists.mp g2.2
      simp [format_script, g1, g2, hjk]
    · simp [format_script, g1, g2]

/-- The cues and overlays of an enhanced script do not read the
timestamp field. -/
theorem enhance_timestamp_irrel (sd : ScriptData) (ts : String) :
    (enhance_script_for_video { sd with timestamp := ts }).visual_cues =
      (enhance_script_for_video sd).visual_cues ∧
    (enhance_script_for_video { sd with timestamp := ts }).text_overlays =
      (enhance_script_for_video sd).text_overlays := by
  by_cases hd : sd.jtype = "dad_joke" <;>
    simp [enhance_script_for_video, hd]

/-- C6: formatting fixes the duration per joke kind — 6 seconds for a
two-part dad joke, 4 for a one-liner, else half the word count of the
script text — and the enrichment (visual cues and text overlays) is
the same deterministic function of the joke for every timestamp. -/
theorem format_script_duration_enrichment (j : JokeData) (now now' : String) :
    (j.jtype = "dad_joke" → j.setup.isSome → j.punchline.isSome →
      ∃ sd, format_script j now = some sd ∧ sd.duration = 6) ∧
    (j.jtype = "one_liner" → j.joke.isSome →
      ∃ sd, format_script j now = some sd ∧ sd.duration = 4) ∧
    (¬(j.jtype = "dad_joke" ∧ j.setup.isSome) →
     ¬(j.jtype = "one_liner" ∧ j.joke.isSome) →
      ∃ sd, format_script j now = some sd ∧
        sd.duration = wordCount sd.script / 2) ∧
    ((format_script j now).map (fun sd =>
        ((enhance_script_for_video sd).visual_cues,
         (enhance_script_for_video sd).text_overlays)) =
     (format_script j now').map (fun sd =>
        ((enhance_script_for_video sd).visual_cues,
         (enhance_script_for_video sd).text_overlays))) := by
  refine ⟨?_, ?_, ?_, ?_⟩
  · intro h1 h2 h3
    obtain ⟨p, hp⟩ := Option.isSome_iff_exists.mp h3
    have g1 : j.jtype = "dad_joke" ∧ j.setup.isSome := ⟨h1, h2⟩
    simp only [format_script, if_pos g1, hp]
    exact ⟨_, rfl, rfl⟩
  · intro h1 h2
    obtain ⟨jk, hjk⟩ := Option.isSome_iff_exists.mp h2
    have g1 : ¬(j.jtype = "dad_joke" ∧ j.setup.isSome) := by
      rintro ⟨hd, -⟩
      rw [h1] at hd
      exact absurd hd (by decide)
    have g2 : j.jtype = "one_liner" ∧ j.joke.isSome := ⟨h1, h2⟩
    simp only [format_script]
    rw [if_neg g1, if_pos g2, hjk]
    exact ⟨_, rfl, rfl⟩
  · intro g1 g2
    simp only [format_script, if_neg g1, if_neg g2]
    exact ⟨_, rfl, rfl⟩
  · rw [format_script_timestamp j now now']
    cases h : format_script j now' with
    | none => rfl
    | some sd =>
      obtain ⟨h1, h2⟩ := enhance_timestamp_irrel sd now
      simp [h1, h2]

/-- C6 witness: the fixed durations evaluated on a concrete two-part
joke and a concrete one-liner. -/
theorem format_script_duration_enrichment_witness :
    (∃ sd, format_script ⟨some "a", some "b", none, "dad_joke"⟩ "t" = some sd ∧
      sd.duration = 6) ∧
    (∃ sd, format_script ⟨none, none, some "c", "one_liner"⟩ "t" = some sd ∧
      sd.duration = 4) :=
  ⟨(format_script_duration_enrichment ⟨some "a", some "b", none, "dad_joke"⟩
      "t" "t").1 rfl rfl rfl,
   (format_script_duration_enrichment ⟨none, none, some "c", "one_liner"⟩
      "t" "t").2.1 rfl rfl⟩

/-- The dad-joke kind tag is non-empty. -/
theorem dad_joke_kind_ne_empty : ("dad_joke" : String) ≠ "" := by decide

/-- The one-liner kind tag is non-empty. -/
theorem one_liner_kind_ne_empty : ("one_liner" : String) ≠ "" := by decide

/-- Concatenation around the separating blank is never empty. -/
theorem append_space_ne_empty (s p : String) : s ++ " " ++ p ≠ "" := by
  intro h
  have hl := congrArg String.length h
  simp [String.length_append] at hl
  exact absurd hl.1.2 (by decide)

/-- C7: each of the three joke-API response shapes normalises and
formats to a record whose script text and kind are populated and
non-empty (for the single-line shapes, provided the joke line itself
is non-empty). -/
theorem api_shapes_populate_script (now : String) :
    (∀ s p, ∃ sd, format_script (fetch_joke_parse (.official s p)) now =
        some sd ∧ sd.script ≠ "" ∧ sd.jtype ≠ "") ∧
    (∀ s d, ∃ sd, format_script (fetch_joke_parse (.jokeapiTwoPart s d)) now =
        some sd ∧ sd.script ≠ "" ∧ sd.jtype ≠ "") ∧
    (∀ jk, jk ≠ "" →
      ∃ sd, format_script (fetch_joke_parse (.jokeapiSingle jk)) now =
        some sd ∧ sd.script ≠ "" ∧ sd.jtype ≠ "") ∧
    (∀ jk, jk ≠ "" →
      ∃ sd, format_script (fetch_joke_parse (.dadjoke jk)) now =
        some sd ∧ sd.script ≠ "" ∧ sd.jtype ≠ "") := by
  refine ⟨?_, ?_, ?_, ?_⟩
  · intro s p
    refine ⟨⟨now, "api", "dad_joke", s ++ " " ++ p, some s, some p, 6,
             "dad joke"⟩, ?_, append_space_ne_empty s p, dad_joke_kind_ne_empty⟩
    simp [format_script, fetch_joke_parse]
  · intro s d
    refine ⟨⟨now, "api", "dad_joke", s ++ " " ++ d, some s, some d, 6,
             "dad joke"⟩, ?_, append_space_ne_empty s d, dad_joke_kind_ne_empty⟩
    simp [format_script, fetch_joke_parse]
  · intro jk hjk
    refine ⟨⟨now, "api", "one_liner", jk, none, none, 4, "one liner"⟩,
            ?_, hjk, one_liner_kind_ne_empty⟩
    simp [format_script, fetch_joke_parse]
  · intro jk hjk
    refine ⟨⟨now, "api", "one_liner", jk, none, none, 4, "one liner"⟩,
            ?_, hjk, one_liner_kind_ne_empty⟩
    simp [format_script, fetch_joke_parse]

/-- C7 witness: the population property evaluated on one concrete
response of each quantified shape. -/
theorem api_shapes_populate_script_witness :
    (∃ sd, format_script (fetch_joke_parse (.official "a" "b")) "t" =
      some sd ∧ sd.script ≠ "" ∧ sd.jtype ≠ "") ∧
    (∃ sd, format_script (fetch_joke_parse (.jokeapiSingle "ha")) "t" =
      some sd ∧ sd.script ≠ "" ∧ sd.jtype ≠ "") :=
  ⟨(api_shapes_populate_script "t").1 "a" "b",
   (api_shapes_populate_script "t").2.2.1 "ha" (by decide)⟩
